import Mathlib

/-!
Shallow embedding of the resiliency helpers and the novel-creation flow of
`src/lib/api/novels.ts` (together with its companion modules `withTimeout`,
`fetchWithRetry`, `uploadNovelCover`, `createNovel`), and proofs of the
specified properties.

Asynchronous operations are modelled by their settled outcome: a settle
time (in milliseconds of simulated wall-clock time since the call) and a
result that is either a value or a rejection reason.  `Promise.race` of two
settled promises is decided by comparing settle times; on a tie the promise
listed first in the race array wins, since its settlement was queued first
on the single-threaded event loop.
-/

/-- A settled JS promise: the time (ms) at which it settles and the outcome
(resolved value or rejection reason). -/
structure AsyncOp (ε α : Type) where
  time : Nat
  result : Except ε α
deriving Repr

/-- The rejection reasons that can come out of `withTimeout`: either the
`Error('Request timed out')` produced by the timer, or the wrapped
operation's own rejection reason. -/
inductive TError (ε : Type) where
  | timeout
  | opErr (e : ε)
deriving DecidableEq, Repr

/-- `SUPABASE_TIMEOUT = 10000` (10 seconds), the default timeout. -/
def SUPABASE_TIMEOUT : Nat := 10000

/-- `Promise.race([p, q])`: whichever settles first determines the result;
on a tie the first element of the array wins. -/
def promiseRace (p q : AsyncOp ε α) : AsyncOp ε α :=
  if p.time ≤ q.time then p else q

/-- The wrapped operation's promise, viewed in the shared rejection-reason
universe of `withTimeout` (JS rejection reasons are untyped; the embedding
tags the operation's reason with `TError.opErr`). -/
def liftOp (p : AsyncOp ε α) : AsyncOp (TError ε) α :=
  { time := p.time, result := p.result.mapError TError.opErr }

/-- State of the `setTimeout` timer created by `withTimeout`: when it fires
and whether `clearTimeout` was ever called on it.  The source never calls
`clearTimeout`, so `cleared` is `false`. -/
structure TimerState where
  firesAt : Nat
  cleared : Bool
deriving DecidableEq, Repr

/-- The timer `withTimeout` arms via `setTimeout(..., timeoutMs)`; the
source contains no `clearTimeout`, so the timer is never cleared. -/
def withTimeoutTimer (timeoutMs : Nat := SUPABASE_TIMEOUT) : TimerState :=
  { firesAt := timeoutMs, cleared := false }

/-- A timer that has neither been cleared nor fired yet is still pending at
time `now`. -/
def TimerState.pendingAt (t : TimerState) (now : Nat) : Bool :=
  !t.cleared && now < t.firesAt

/-- `timeoutPromise`: rejects with `Error('Request timed out')` when the
timer fires. -/
def timeoutPromise (timeoutMs : Nat) : AsyncOp (TError ε) α :=
  { time := (withTimeoutTimer timeoutMs).firesAt, result := .error .timeout }

/-- `withTimeout(promise, timeoutMs = SUPABASE_TIMEOUT)`: races the
operation against the timeout promise. -/
def withTimeout (p : AsyncOp ε α) (timeoutMs : Nat := SUPABASE_TIMEOUT) :
    AsyncOp (TError ε) α :=
  promiseRace (liftOp p) (timeoutPromise timeoutMs)

/-- Observable trace of one call to `fetchWithRetry`: how many times
`fetchFn` was invoked, the backoff waits performed between attempts (in
order, in ms), and the final outcome.  The rejection reason is
`Option (TError ε)` because the source throws the variable `lastError`,
which is still `undefined` (`none`) when the loop body never ran. -/
structure RetryTrace (ε α : Type) where
  attempts : Nat
  waits : List Nat
  result : Except (Option (TError ε)) α
deriving Repr

/-- Outcome of attempt `i` (0-indexed): `await withTimeout(fetchFn())` with
the default timeout.  The operation each attempt runs is given by `fetchFn`
as a function of the attempt index (each attempt is a fresh invocation). -/
def attemptResult (fetchFn : Nat → AsyncOp ε α) (i : Nat) :
    Except (TError ε) α :=
  (withTimeout (fetchFn i)).result

/-- The `for (let i = 0; i < maxRetries; i++)` loop of `fetchWithRetry`,
with `fuel` the number of iterations remaining (`fuel = maxRetries - i`)
and `lastError` the current value of the `lastError` variable.  On failure
the loop waits `delay * (i + 1)` ms iff `i < maxRetries - 1`. -/
def fetchWithRetryGo (fetchFn : Nat → AsyncOp ε α) (delay maxRetries : Nat) :
    Nat → Nat → Option (TError ε) → RetryTrace ε α
  | _, 0, lastError => { attempts := 0, waits := [], result := .error lastError }
  | i, fuel + 1, _ =>
    match attemptResult fetchFn i with
    | .ok v => { attempts := 1, waits := [], result := .ok v }
    | .error e =>
      let rest := fetchWithRetryGo fetchFn delay maxRetries (i + 1) fuel (some e)
      { attempts := rest.attempts + 1,
        waits := (if i < maxRetries - 1 then [delay * (i + 1)] else []) ++ rest.waits,
        result := rest.result }

/-- `fetchWithRetry(fetchFn, maxRetries = 3, delay = 1000)`.  `maxRetries`
is an arbitrary JS number, kept as `Int` so that non-positive values (loop
never entered) are representable; the loop runs `maxRetries.toNat` times. -/
def fetchWithRetry (fetchFn : Nat → AsyncOp ε α) (maxRetries : Int := 3)
    (delay : Nat := 1000) : RetryTrace ε α :=
  fetchWithRetryGo fetchFn delay maxRetries.toNat 0 maxRetries.toNat none

/-- A JS `Error`-like value with its `message` field. -/
structure JsError where
  message : String
deriving DecidableEq, Repr

/-- A browser `File`; only its presence matters to `createNovel`. -/
structure File where
  name : String
deriving DecidableEq, Repr

/-- The form data `createNovel` receives
(`Omit<Novel, 'novel_id' | 'views' | 'created_at' | 'updated_at'>`). -/
structure NovelForm where
  title : String
  author : String
  genre : List String
  leading_character : String
  story : String
deriving DecidableEq, Repr

/-- The record `createNovel` inserts into the `Novels` table. -/
structure NovelRow where
  form : NovelForm
  novel_coverpage : Option String
  upload_by : String
  views : Nat
  created_at : String
deriving DecidableEq, Repr

/-- The value `createNovel` returns: `{ success: boolean; error?: string }`. -/
structure CreateNovelResult where
  success : Bool
  error : Option String
deriving DecidableEq, Repr

/-- The `if (coverImage) novel_coverpage = await uploadNovelCover(coverImage)`
step: `novel_coverpage` stays `null` when no cover was given; a failing
upload rethrows (propagating to `createNovel`'s `catch`). -/
def coverStep (upload : File → Except JsError String)
    (coverImage : Option File) : Except JsError (Option String) :=
  match coverImage with
  | some f => (upload f).map some
  | none => .ok none

/-- The record passed to `.from('Novels').insert([...])`: the spread form
data plus `novel_coverpage`, `upload_by: userId`, `views: 0`, and
`created_at` (the `new Date().toISOString()` value). -/
def novelRow (formData : NovelForm) (cover : Option String)
    (userId now : String) : NovelRow :=
  { form := formData, novel_coverpage := cover, upload_by := userId,
    views := 0, created_at := now }

/-- The `try` block of `createNovel`: upload the cover when one was given,
insert the row, and `throw error` when the insert reports one.  The
collaborators' behaviors (`upload`, `insert`) and the
`new Date().toISOString()` value (`now`) are inputs. -/
def createNovelBody (upload : File → Except JsError String)
    (insert : NovelRow → Except JsError Unit) (formData : NovelForm)
    (coverImage : Option File) (userId : String) (now : String) :
    Except JsError CreateNovelResult :=
  match coverStep upload coverImage with
  | .error e => .error e
  | .ok novel_coverpage =>
    match insert (novelRow formData novel_coverpage userId now) with
    | .error e => .error e
    | .ok _ => .ok { success := true, error := none }

/-- `createNovel`: runs the `try` block; the `catch` absorbs any failure
and returns `{ success: false, error: error.message }`. -/
def createNovel (upload : File → Except JsError String)
    (insert : NovelRow → Except JsError Unit) (formData : NovelForm)
    (coverImage : Option File) (userId : String) (now : String) :
    CreateNovelResult :=
  match createNovelBody upload insert formData coverImage userId now with
  | .ok r => r
  | .error e => { success := false, error := some e.message }

/-! ### Helper lemmas about the retry loop -/

theorem fetchWithRetryGo_attempts_pos (fetchFn : Nat → AsyncOp ε α)
    (delay maxRetries i fuel : Nat) (lastError : Option (TError ε))
    (h : 1 ≤ fuel) :
    1 ≤ (fetchWithRetryGo fetchFn delay maxRetries i fuel lastError).attempts := by
  cases fuel with
  | zero => omega
  | succ f =>
    simp only [fetchWithRetryGo]
    cases hA : attemptResult fetchFn i <;> simp [hA]

theorem fetchWithRetryGo_all_fail (fetchFn : Nat → AsyncOp ε α)
    (delay maxRetries : Nat) (err : Nat → TError ε)
    (hfail : ∀ i, attemptResult fetchFn i = .error (err i)) :
    ∀ fuel i lastError, 1 ≤ fuel → i + fuel = maxRetries →
      (fetchWithRetryGo fetchFn delay maxRetries i fuel lastError).attempts = fuel ∧
      (fetchWithRetryGo fetchFn delay maxRetries i fuel lastError).result
        = .error (some (err (maxRetries - 1))) := by
  intro fuel
  induction fuel with
  | zero => intro i lastError h1 _; omega
  | succ f ih =>
    intro i lastError _ hsum
    simp only [fetchWithRetryGo, hfail i]
    cases f with
    | zero =>
      have hi : i = maxRetries - 1 := by omega
      simp [fetchWithRetryGo, hi]
    | succ f' =>
      have hrest := ih (i + 1) (some (err i)) (by omega) (by omega)
      simp [hrest.1, hrest.2]

theorem fetchWithRetryGo_succeeds (fetchFn : Nat → AsyncOp ε α)
    (delay maxRetries : Nat) (v : α) :
    ∀ m i fuel lastError, m < fuel →
      (∀ j, j < m → ∃ e, attemptResult fetchFn (i + j) = .error e) →
      attemptResult fetchFn (i + m) = .ok v →
      (fetchWithRetryGo fetchFn delay maxRetries i fuel lastError).attempts = m + 1 ∧
      (fetchWithRetryGo fetchFn delay maxRetries i fuel lastError).result = .ok v := by
  intro m
  induction m with
  | zero =>
    intro i fuel lastError hm _ hsucc
    cases fuel with
    | zero => omega
    | succ f =>
      rw [Nat.add_zero] at hsucc
      simp [fetchWithRetryGo, hsucc]
  | succ m' ih =>
    intro i fuel lastError hm hfail hsucc
    cases fuel with
    | zero => omega
    | succ f =>
      obtain ⟨e, he⟩ := hfail 0 (by omega)
      rw [Nat.add_zero] at he
      have hrest := ih (i + 1) f (some e) (by omega)
        (fun j hj => by
          have h' := hfail (j + 1) (by omega)
          rwa [show i + (j + 1) = i + 1 + j by omega] at h')
        (by rwa [show i + 1 + m' = i + (m' + 1) by omega])
      simp only [fetchWithRetryGo, he]
      simp [hrest.1, hrest.2]

theorem fetchWithRetryGo_waits (fetchFn : Nat → AsyncOp ε α)
    (delay maxRetries : Nat) :
    ∀ fuel i lastError, i + fuel = maxRetries →
      (fetchWithRetryGo fetchFn delay maxRetries i fuel lastError).waits
        = (List.range' (i + 1)
            ((fetchWithRetryGo fetchFn delay maxRetries i fuel lastError).attempts - 1)).map
            (fun j => delay * j) := by
  intro fuel
  induction fuel with
  | zero => intro i lastError hsum; simp [fetchWithRetryGo]
  | succ f ih =>
    intro i lastError hsum
    simp only [fetchWithRetryGo]
    cases hA : attemptResult fetchFn i with
    | ok v => simp
    | error e =>
      cases f with
      | zero =>
        have hguard : ¬ i < maxRetries - 1 := by omega
        simp [fetchWithRetryGo, hguard]
      | succ f' =>
        have hguard : i < maxRetries - 1 := by omega
        have hrest := ih (i + 1) (some e) (by omega)
        have hpos := fetchWithRetryGo_attempts_pos fetchFn delay maxRetries
          (i + 1) (f' + 1) (some e) (by omega)
        obtain ⟨m, hm⟩ := Nat.exists_eq_add_of_le hpos
        rw [Nat.add_comm 1 m] at hm
        simp only [hguard, if_pos, hm, Nat.add_sub_cancel] at hrest ⊢
        rw [List.range'_succ, List.map_cons]
        simp [hrest]

/-! ### Claims about `withTimeout` -/

/-- C3: for every operation that settles only after the configured timeout
duration, `withTimeout` fails with the `Timeout` error at the configured
duration, regardless of whether the operation eventually would have
succeeded; the operation's later value is discarded, not returned. -/
theorem withTimeout_slow_op_times_out (p : AsyncOp ε α) (timeoutMs : Nat)
    (h : timeoutMs < p.time) :
    (withTimeout p timeoutMs).time = timeoutMs ∧
    (withTimeout p timeoutMs).result = .error .timeout := by
  have hle : ¬ (liftOp p).time ≤ (timeoutPromise (ε := ε) (α := α) timeoutMs).time := by
    simp only [liftOp, timeoutPromise, withTimeoutTimer]
    omega
  rw [withTimeout, promiseRace, if_neg hle]
  exact ⟨rfl, rfl⟩

theorem withTimeout_slow_op_times_out_witness :
    (withTimeout (⟨20, Except.ok 7⟩ : AsyncOp Unit Nat) 10).time = 10 ∧
    (withTimeout (⟨20, Except.ok 7⟩ : AsyncOp Unit Nat) 10).result
      = .error .timeout :=
  withTimeout_slow_op_times_out ⟨20, Except.ok 7⟩ 10 (by decide)

/-- C4: for every operation that settles (with a value or a failure)
strictly before the configured timeout elapses, `withTimeout` produces
exactly that outcome at the operation's settle time: a value is returned
unchanged, and an operation failure is propagated as the operation's own
failure reason, not a `Timeout`. -/
theorem withTimeout_fast_op_passthrough (p : AsyncOp ε α) (timeoutMs : Nat)
    (h : p.time < timeoutMs) :
    (withTimeout p timeoutMs).time = p.time ∧
    (∀ v, p.result = .ok v → (withTimeout p timeoutMs).result = .ok v) ∧
    (∀ e, p.result = .error e →
      (withTimeout p timeoutMs).result = .error (TError.opErr e)) := by
  have hle : (liftOp p).time ≤ (timeoutPromise (ε := ε) (α := α) timeoutMs).time := by
    simp only [liftOp, timeoutPromise, withTimeoutTimer]
    omega
  rw [withTimeout, promiseRace, if_pos hle]
  refine ⟨rfl, ?_, ?_⟩
  · intro v hv
    simp [liftOp, hv, Except.mapError]
  · intro e he
    simp [liftOp, he, Except.mapError]

theorem withTimeout_fast_op_passthrough_witness :
    (withTimeout (⟨3, Except.ok 42⟩ : AsyncOp String Nat) 10).result
        = Except.ok 42 ∧
    (withTimeout (⟨4, Except.error "boom"⟩ : AsyncOp String Nat) 10).result
        = .error (TError.opErr "boom") :=
  ⟨(withTimeout_fast_op_passthrough ⟨3, Except.ok 42⟩ 10 (by decide)).2.1 42 rfl,
   (withTimeout_fast_op_passthrough ⟨4, Except.error "boom"⟩ 10
      (by decide)).2.2 "boom" rfl⟩

/-- C8 counterexample: with an operation that settles at time 0 under a
10000 ms timeout, the race is decided at time 0, yet the `setTimeout` timer
is still pending at time 5000 — the source has no `clearTimeout`, so the
timer is NOT released once the race is decided. -/
theorem withTimeout_timer_not_released_at_race :
    (withTimeout (⟨0, Except.ok ()⟩ : AsyncOp Unit Unit) 10000).time = 0 ∧
    (withTimeoutTimer 10000).cleared = false ∧
    (withTimeoutTimer 10000).pendingAt 5000 = true := by
  refine ⟨rfl, rfl, rfl⟩

/-- C8 amended: `withTimeout` never clears its timer; after the race is
decided the timer remains pending until it fires on its own at `timeoutMs`
(a bounded leak), and only from that moment on is it no longer pending. -/
theorem withTimeout_timer_pending_until_fire (timeoutMs now : Nat) :
    (withTimeoutTimer timeoutMs).cleared = false ∧
    ((withTimeoutTimer timeoutMs).pendingAt now = decide (now < timeoutMs)) := by
  simp [withTimeoutTimer, TimerState.pendingAt]

/-! ### Claims about `fetchWithRetry` -/

/-- C1: for every operation that fails on every attempt,
`fetchWithRetry` invokes the operation exactly `maxRetries` times, no more,
no fewer, and then rejects with the failure reason of the last attempt only
(earlier failures are discarded, not aggregated). -/
theorem fetchWithRetry_all_fail_last_error (fetchFn : Nat → AsyncOp ε α)
    (maxRetries : Int) (delay : Nat) (hpos : 1 ≤ maxRetries)
    (err : Nat → TError ε)
    (hfail : ∀ i, attemptResult fetchFn i = .error (err i)) :
    (fetchWithRetry fetchFn maxRetries delay).attempts = maxRetries.toNat ∧
    (fetchWithRetry fetchFn maxRetries delay).result
      = .error (some (err (maxRetries.toNat - 1))) :=
  fetchWithRetryGo_all_fail fetchFn delay maxRetries.toNat err hfail
    maxRetries.toNat 0 none (by omega) (by omega)

theorem fetchWithRetry_all_fail_last_error_witness :
    (fetchWithRetry (fun i => ⟨0, Except.error i⟩ : Nat → AsyncOp Nat Unit)
        3 7).attempts = 3 ∧
    (fetchWithRetry (fun i => ⟨0, Except.error i⟩ : Nat → AsyncOp Nat Unit)
        3 7).result = .error (some (TError.opErr 2)) :=
  fetchWithRetry_all_fail_last_error (fun i => ⟨0, Except.error i⟩) 3 7
    (by decide) (fun i => TError.opErr i) (fun _ => rfl)

/-- C2: for every operation that succeeds on attempt `k` (1-indexed,
`k ≤ maxRetries`) and fails on all earlier attempts, `fetchWithRetry`
invokes the operation exactly `k` times, returns that attempt's success
value, and performs no attempt `k + 1`. -/
theorem fetchWithRetry_succeeds_at_k (fetchFn : Nat → AsyncOp ε α)
    (maxRetries : Int) (delay : Nat) (k : Nat) (v : α)
    (hk1 : 1 ≤ k) (hk2 : (k : Int) ≤ maxRetries)
    (hfail : ∀ j, j < k - 1 → ∃ e, attemptResult fetchFn j = .error e)
    (hsucc : attemptResult fetchFn (k - 1) = .ok v) :
    (fetchWithRetry fetchFn maxRetries delay).attempts = k ∧
    (fetchWithRetry fetchFn maxRetries delay).result = .ok v := by
  have h := fetchWithRetryGo_succeeds fetchFn delay maxRetries.toNat v (k - 1)
    0 maxRetries.toNat none (by omega)
    (fun j hj => by simpa using hfail j hj)
    (by simpa using hsucc)
  have h1 := h.1
  refine ⟨?_, h.2⟩
  show (fetchWithRetryGo fetchFn delay maxRetries.toNat 0 maxRetries.toNat
    none).attempts = k
  omega

theorem fetchWithRetry_succeeds_at_k_witness :
    (fetchWithRetry
        (fun i => if i < 2 then ⟨0, Except.error "boom"⟩ else ⟨0, Except.ok 42⟩
          : Nat → AsyncOp String Nat) 3 1000).attempts = 3 ∧
    (fetchWithRetry
        (fun i => if i < 2 then ⟨0, Except.error "boom"⟩ else ⟨0, Except.ok 42⟩
          : Nat → AsyncOp String Nat) 3 1000).result = Except.ok 42 :=
  fetchWithRetry_succeeds_at_k
    (fun i => if i < 2 then ⟨0, Except.error "boom"⟩ else ⟨0, Except.ok 42⟩)
    3 1000 3 42 (by decide) (by decide)
    (fun j hj => ⟨TError.opErr "boom", by interval_cases j <;> rfl⟩) rfl

/-- C5: in every run of `fetchWithRetry`, the list of backoff waits is
`[delay * 1, delay * 2, ...]` with one entry per non-final attempt: the
wait between attempt `i` and attempt `i + 1` (1-indexed) is exactly
`delay * i` (linear backoff, no jitter), and no wait occurs after the final
attempt (the list has `attempts - 1` entries). -/
theorem fetchWithRetry_backoff_waits (fetchFn : Nat → AsyncOp ε α)
    (maxRetries : Int) (delay : Nat) :
    (fetchWithRetry fetchFn maxRetries delay).waits
      = (List.range' 1 ((fetchWithRetry fetchFn maxRetries delay).attempts - 1)).map
          (fun j => delay * j) := by
  simpa using fetchWithRetryGo_waits fetchFn delay maxRetries.toNat
    maxRetries.toNat 0 none (by omega)

/-- C6: calling `fetchWithRetry` with `maxRetries = 1` invokes the
operation exactly once, inserts no backoff wait, and surfaces that single
attempt's outcome: its value on success, its failure (as the thrown
`lastError`) on failure. -/
theorem fetchWithRetry_single_attempt (fetchFn : Nat → AsyncOp ε α)
    (delay : Nat) :
    (fetchWithRetry fetchFn 1 delay).attempts = 1 ∧
    (fetchWithRetry fetchFn 1 delay).waits = [] ∧
    (fetchWithRetry fetchFn 1 delay).result
      = (attemptResult fetchFn 0).mapError (fun e => some e) := by
  have h1 : (1 : Int).toNat = 1 := rfl
  cases hA : attemptResult fetchFn 0 with
  | ok v =>
    simp [fetchWithRetry, h1, fetchWithRetryGo, hA, Except.mapError]
  | error e =>
    simp [fetchWithRetry, h1, fetchWithRetryGo, hA, Except.mapError]

/-- C7: `SUPABASE_TIMEOUT` is 10000 ms (10 seconds) and the defaults of
`fetchWithRetry` are `maxRetries = 3`, `delay = 1000`; every attempt is
wrapped by `withTimeout` with the default timeout, so an attempt whose
operation does not settle within 10 seconds counts as a failed attempt
(here: an operation slower than the timeout on every attempt makes the
default-configured `fetchWithRetry` perform all 3 attempts and reject with
the timeout failure). -/
theorem fetchWithRetry_attempts_use_default_timeout :
    SUPABASE_TIMEOUT = 10000 ∧
    (∀ (ε α : Type) (fetchFn : Nat → AsyncOp ε α),
      fetchWithRetry fetchFn = fetchWithRetry fetchFn 3 1000) ∧
    (∀ (ε α : Type) (fetchFn : Nat → AsyncOp ε α) (i : Nat),
      SUPABASE_TIMEOUT < (fetchFn i).time →
      attemptResult fetchFn i = .error .timeout) ∧
    (∀ (ε α : Type) (fetchFn : Nat → AsyncOp ε α),
      (∀ i, SUPABASE_TIMEOUT < (fetchFn i).time) →
      (fetchWithRetry fetchFn).attempts = 3 ∧
      (fetchWithRetry fetchFn).result = .error (some .timeout)) := by
  have hatt : ∀ (ε α : Type) (fetchFn : Nat → AsyncOp ε α) (i : Nat),
      SUPABASE_TIMEOUT < (fetchFn i).time →
      attemptResult fetchFn i = .error .timeout := by
    intro ε α fetchFn i hi
    have hle : ¬ (liftOp (fetchFn i)).time
        ≤ (timeoutPromise (ε := ε) (α := α) SUPABASE_TIMEOUT).time := by
      simp only [liftOp, timeoutPromise, withTimeoutTimer]
      omega
    rw [attemptResult, withTimeout, promiseRace, if_neg hle]
    rfl
  refine ⟨rfl, fun _ _ _ => rfl, hatt, ?_⟩
  intro ε α fetchFn hslow
  exact fetchWithRetryGo_all_fail fetchFn 1000 3 (fun _ => .timeout)
    (fun i => hatt ε α fetchFn i (hslow i)) 3 0 none (by omega) (by omega)

theorem fetchWithRetry_attempts_use_default_timeout_witness :
    (fetchWithRetry (fun _ => ⟨20000, Except.ok 5⟩ : Nat → AsyncOp Unit Nat)).attempts
        = 3 ∧
    (fetchWithRetry (fun _ => ⟨20000, Except.ok 5⟩ : Nat → AsyncOp Unit Nat)).result
        = .error (some TError.timeout) :=
  fetchWithRetry_attempts_use_default_timeout.2.2.2 Unit Nat
    (fun _ => ⟨20000, Except.ok 5⟩)
    (fun _ => show SUPABASE_TIMEOUT < 20000 by decide)

/-- C10: calling `fetchWithRetry` with `maxRetries ≤ 0` never invokes the
operation at all (the loop body is never entered) and rejects with the
still-`undefined` `lastError` (modelled as `none`). -/
theorem fetchWithRetry_nonpositive_no_attempts (fetchFn : Nat → AsyncOp ε α)
    (maxRetries : Int) (delay : Nat) (h : maxRetries ≤ 0) :
    fetchWithRetry fetchFn maxRetries delay
      = { attempts := 0, waits := [], result := .error none } := by
  have h0 : maxRetries.toNat = 0 := by omega
  rw [fetchWithRetry, h0]
  rfl

theorem fetchWithRetry_nonpositive_no_attempts_witness :
    fetchWithRetry (fun _ => ⟨0, Except.ok 0⟩ : Nat → AsyncOp Unit Nat) 0 1000
      = { attempts := 0, waits := [], result := .error none } :=
  fetchWithRetry_nonpositive_no_attempts (fun _ => ⟨0, Except.ok 0⟩) 0 1000
    (by decide)

/-! ### Claim about `createNovel` -/

/-- C9: for every input (form data, optional cover image, user id) and
every behavior of the upload and insert collaborators, `createNovel` never
throws: it returns `{ success: true }` when the `try` block completes, and
otherwise absorbs the failure raised by `uploadNovelCover` or the record
store and returns `{ success: false, error: <that failure's message> }`. -/
theorem createNovel_total_outcome (upload : File → Except JsError String)
    (insert : NovelRow → Except JsError Unit) (formData : NovelForm)
    (coverImage : Option File) (userId now : String) :
    (createNovel upload insert formData coverImage userId now
        = { success := true, error := none } ∧
      ∃ r, createNovelBody upload insert formData coverImage userId now
        = .ok r) ∨
    (∃ e : JsError,
      createNovelBody upload insert formData coverImage userId now
        = .error e ∧
      createNovel upload insert formData coverImage userId now
        = { success := false, error := some e.message }) := by
  cases hC : coverStep upload coverImage with
  | error e =>
    right
    exact ⟨e, by simp only [createNovelBody, hC],
      by simp only [createNovel, createNovelBody, hC]⟩
  | ok cover =>
    cases hI : insert (novelRow formData cover userId now) with
    | error e =>
      right
      refine ⟨e, ?_, ?_⟩
      · simp only [createNovelBody, hC, hI]
      · simp only [createNovel, createNovelBody, hC, hI]
    | ok u =>
      left
      constructor
      · simp only [createNovel, createNovelBody, hC, hI]
      · exact ⟨{ success := true, error := none },
          by simp only [createNovelBody, hC, hI]⟩
